import Mathlib

/-!
Verification of the escooter-repair-directory backend's batch orchestration
and rate-limited external-call pipeline.

The JavaScript source is shallowly embedded: every function below mirrors one
source function statement by statement.  External effects (the Anthropic API,
the Supabase client, the Apify actor, the wall clock) are passed in as explicit
oracle parameters; JavaScript `undefined` on an absent object property is
modelled as `Option.none`, and JavaScript truthiness tests are spelled out as
explicit `js*` helpers so that the embedding keeps the exact semantics of the
source's `!x`, `x || d` and `x < k` expressions.
-/

/-- JavaScript truthiness for an optional string: `!x` is true when the
property is absent (`undefined`/`null`) or the empty string. -/
def jsFalsyStr : Option String → Bool
  | none => true
  | some s => s.isEmpty

/-- JavaScript truthiness for an optional rational number: `!x` is true when
the property is absent or the number is `0`. -/
def jsFalsyNum : Option ℚ → Bool
  | none => true
  | some q => q = 0

/-- JavaScript `x < k` where `x` may be `undefined`: `undefined < k` converts
`undefined` to `NaN` and every comparison with `NaN` is false. -/
def jsUndefLt (x : Option ℕ) (k : ℕ) : Bool :=
  match x with
  | none => false
  | some n => n < k

/-- JavaScript string interpolation of a possibly-`undefined` number:
`${undefined}` renders as `"undefined"`. -/
def jsShowOptNat : Option ℕ → String
  | none => "undefined"
  | some n => toString n

/-- `x || d` for an optional value: the default is taken when the property is
absent (the only falsy cases arising in the source are `undefined`/`null`). -/
def jsOrElse (x : Option α) (d : α) : α := x.getD d

/-- Fuel-bounded core of `chunksOf`; the fuel (one unit per loop iteration,
`chunksOf` supplies the list's length, which always suffices for a positive
chunk size) only makes the recursion structural. -/
def chunksOfF (n : ℕ) : ℕ → List α → List (List α)
  | _, [] => []
  | 0, l => [l]
  | fuel + 1, l => l.take n :: chunksOfF n fuel (l.drop n)

/-- Fixed-size chunking used by the Supabase write paths
(`for (let i = 0; i < xs.length; i += SIZE) { const batch = xs.slice(i, i + SIZE); … }`). -/
def chunksOf (n : ℕ) (l : List α) : List (List α) :=
  chunksOfF n l.length l

theorem chunksOfF_nil (n fuel : ℕ) : chunksOfF n fuel ([] : List α) = [] := by
  cases fuel <;> rfl

theorem chunksOfF_congr (n : ℕ) (hn : n ≠ 0) :
    ∀ (f1 f2 : ℕ) (l : List α), l.length ≤ f1 → l.length ≤ f2 →
    chunksOfF n f1 l = chunksOfF n f2 l := by
  intro f1
  induction f1 with
  | zero =>
      intro f2 l h1 _
      have : l = [] := by
        cases l with
        | nil => rfl
        | cons a t => simp at h1
      simp [this, chunksOfF_nil]
  | succ f ih =>
      intro f2 l h1 h2
      cases l with
      | nil => simp [chunksOfF_nil]
      | cons a t =>
          cases f2 with
          | zero => simp at h2
          | succ g =>
              show (a :: t).take n :: chunksOfF n f ((a :: t).drop n) =
                (a :: t).take n :: chunksOfF n g ((a :: t).drop n)
              have hlen : ((a :: t).drop n).length = (a :: t).length - n := by
                simp [List.length_drop]
              have hf : ((a :: t).drop n).length ≤ f := by
                simp only [List.length_cons] at h1
                simp only [hlen, List.length_cons]
                omega
              have hg : ((a :: t).drop n).length ≤ g := by
                simp only [List.length_cons] at h2
                simp only [hlen, List.length_cons]
                omega
              rw [ih g ((a :: t).drop n) hf hg]

theorem chunksOf_nil (n : ℕ) : chunksOf n ([] : List α) = [] := rfl

theorem chunksOf_ne_nil (n : ℕ) (l : List α) (hl : l ≠ []) (hn : n ≠ 0) :
    chunksOf n l = l.take n :: chunksOf n (l.drop n) := by
  cases l with
  | nil => exact absurd rfl hl
  | cons a t =>
      show chunksOfF n (t.length + 1) (a :: t) = _
      show (a :: t).take n :: chunksOfF n t.length ((a :: t).drop n) = _
      rw [chunksOfF_congr n hn t.length ((a :: t).drop n).length ((a :: t).drop n)
        (by simp [List.length_drop]; omega) le_rfl]
      rfl

theorem chunksOf_join (n : ℕ) (hn : n ≠ 0) (l : List α) :
    (chunksOf n l).flatten = l := by
  have H : ∀ (k : ℕ) (l : List α), l.length ≤ k → (chunksOf n l).flatten = l := by
    intro k
    induction k with
    | zero =>
        intro l hl
        have hnil : l = [] := by
          cases l with
          | nil => rfl
          | cons a t => simp at hl
        simp [hnil, chunksOf_nil]
    | succ k ih =>
        intro l hl
        by_cases hz : l = []
        · simp [hz, chunksOf_nil]
        · rw [chunksOf_ne_nil n l hz hn]
          have hpos : 0 < l.length := List.length_pos.mpr hz
          have hdrop : (l.drop n).length ≤ k := by
            simp only [List.length_drop]
            omega
          simp only [List.flatten_cons]
          rw [ih (l.drop n) hdrop]
          exact List.take_append_drop n l
  exact H l.length l le_rfl

/-! ### Rate limiter (`services/claudeAPICall.js`, `checkRateLimits`) -/

/-- `RATE_LIMITS.REQUESTS_PER_MINUTE` in `services/claudeAPICall.js`. -/
def REQUESTS_PER_MINUTE : ℕ := 45

/-- `RATE_LIMITS.TOKENS_PER_MINUTE` in `services/claudeAPICall.js`. -/
def TOKENS_PER_MINUTE : ℕ := 35000

/-- The module-level mutable rate-limit window state of
`services/claudeAPICall.js` (`requestsThisMinute`, `tokensThisMinute`,
`lastResetTime`); times are milliseconds as produced by `Date.now()`. -/
structure RLState where
  requestsThisMinute : ℕ
  tokensThisMinute : ℕ
  lastResetTime : ℕ
  deriving Repr, DecidableEq

/-- `checkRateLimits(estimatedInputTokens)`: given the current window state and
the wall-clock time `now` of the call, returns whether the call waited for the
window to elapse, together with the state after the call has been accounted.

Branches, in source order:
* `timeElapsed >= 60000` — reset counters, set `lastResetTime = now` and
  `return` immediately (the call itself is *not* accounted in this branch);
* a ceiling would be hit — sleep `60000 - timeElapsed` ms (so the awakening
  time is `now + (60000 - timeElapsed)`), zero both counters, set
  `lastResetTime` to the awakening time, then fall through to the accounting;
* otherwise fall through to the accounting, which increments
  `requestsThisMinute` and adds `estimatedInputTokens` to `tokensThisMinute`. -/
def checkRateLimits (st : RLState) (now est : ℕ) : Bool × RLState :=
  let timeElapsed := now - st.lastResetTime
  if 60000 ≤ timeElapsed then
    (false, ⟨0, 0, now⟩)
  else if REQUESTS_PER_MINUTE ≤ st.requestsThisMinute ∨
      TOKENS_PER_MINUTE ≤ st.tokensThisMinute + est then
    (true, ⟨0 + 1, 0 + est, now + (60000 - timeElapsed)⟩)
  else
    (false, ⟨st.requestsThisMinute + 1, st.tokensThisMinute + est, st.lastResetTime⟩)

/-- A sequence of `checkRateLimits` calls, each given as a `(now, est)` pair;
returns the per-call waited-flags in order and the final window state. -/
def runRateLimitCalls (st : RLState) : List (ℕ × ℕ) → List Bool × RLState
  | [] => ([], st)
  | c :: rest =>
    let r := checkRateLimits st c.1 c.2
    let k := runRateLimitCalls r.2 rest
    (r.1 :: k.1, k.2)

/-- Token feasibility of a call sequence: starting from a token counter `t`,
each call's estimated cost keeps the counter strictly below the token ceiling
at the moment it is checked. -/
def tokensFeasible : ℕ → List (ℕ × ℕ) → Bool
  | _, [] => true
  | t, c :: rest => (t + c.2 < TOKENS_PER_MINUTE) && tokensFeasible (t + c.2) rest

/-- Sum of the estimated token costs of a call sequence. -/
def sumEst (calls : List (ℕ × ℕ)) : ℕ := (calls.map (·.2)).sum

theorem runRateLimitCalls_no_wait (t0 : ℕ) :
    ∀ (calls : List (ℕ × ℕ)) (req tok : ℕ),
    (∀ c ∈ calls, t0 ≤ c.1 ∧ c.1 < t0 + 60000) →
    req + calls.length ≤ REQUESTS_PER_MINUTE →
    tokensFeasible tok calls = true →
    runRateLimitCalls ⟨req, tok, t0⟩ calls =
      (List.replicate calls.length false, ⟨req + calls.length, tok + sumEst calls, t0⟩) := by
  intro calls
  induction calls with
  | nil =>
      intro req tok _ _ _
      simp [runRateLimitCalls, sumEst]
  | cons c rest ih =>
      intro req tok hwin hreq htok
      have hc := hwin c (List.mem_cons_self c rest)
      have helapsed : ¬ 60000 ≤ c.1 - t0 := by omega
      have hreqlt : ¬ REQUESTS_PER_MINUTE ≤ req := by
        simp only [List.length_cons] at hreq
        omega
      have htok1 : tok + c.2 < TOKENS_PER_MINUTE ∧ tokensFeasible (tok + c.2) rest = true := by
        simpa [tokensFeasible, Bool.and_eq_true] using htok
      have htoklt : ¬ TOKENS_PER_MINUTE ≤ tok + c.2 := by omega
      have hstep : checkRateLimits ⟨req, tok, t0⟩ c.1 c.2 =
          (false, ⟨req + 1, tok + c.2, t0⟩) := by
        simp [checkRateLimits, helapsed, hreqlt, htoklt]
      have hrest := ih (req + 1) (tok + c.2)
        (fun d hd => hwin d (List.mem_cons_of_mem c hd))
        (by simp only [List.length_cons] at hreq; omega) htok1.2
      simp only [runRateLimitCalls, hstep, hrest, List.length_cons, List.replicate_succ,
        sumEst, List.map_cons, List.sum_cons]
      refine Prod.ext rfl ?_
      simp only
      congr 1 <;> omega

/-- **C3**: with the request ceiling at 45 per 60-second window, starting from a
fresh window (both counters zero, window start `t0`) and with every call's
estimated token cost keeping the token counter strictly below the token
ceiling, the first 45 `checkRateLimits` calls issued within the window all
return without waiting; a 46th call within the same window waits until the
window elapses, and after that reset both counters are zero before the waiting
call is accounted (so the final state shows exactly the one freshly accounted
call: `0 + 1` requests and `0 + est` tokens). -/
theorem checkRateLimits_boundary
    (t0 : ℕ) (calls : List (ℕ × ℕ)) (c46 : ℕ × ℕ)
    (hlen : calls.length = 45)
    (hwin : ∀ c ∈ calls, t0 ≤ c.1 ∧ c.1 < t0 + 60000)
    (htok : tokensFeasible 0 calls = true)
    (hwin46 : t0 ≤ c46.1 ∧ c46.1 < t0 + 60000) :
    (runRateLimitCalls ⟨0, 0, t0⟩ calls).1 = List.replicate 45 false ∧
    checkRateLimits (runRateLimitCalls ⟨0, 0, t0⟩ calls).2 c46.1 c46.2 =
      (true, ⟨0 + 1, 0 + c46.2, c46.1 + (60000 - (c46.1 - t0))⟩) := by
  have hrun := runRateLimitCalls_no_wait t0 calls 0 0 hwin (by rw [hlen]; decide) htok
  refine ⟨by rw [hrun, hlen], ?_⟩
  rw [hrun]
  have helapsed : ¬ 60000 ≤ c46.1 - t0 := by omega
  have hreq : REQUESTS_PER_MINUTE ≤ calls.length := by
    rw [hlen]; decide
  simp [checkRateLimits, helapsed, hreq]

/-- Witness for `checkRateLimits_boundary` at a concrete input: 45 calls at
time 0 with zero estimated cost, then a 46th call at time 0. -/
theorem checkRateLimits_boundary_witness :
    (List.replicate 45 ((0 : ℕ), (0 : ℕ))).length = 45 ∧
    tokensFeasible 0 (List.replicate 45 (0, 0)) = true ∧
    ((runRateLimitCalls ⟨0, 0, 0⟩ (List.replicate 45 (0, 0))).1 =
        List.replicate 45 false ∧
      checkRateLimits (runRateLimitCalls ⟨0, 0, 0⟩ (List.replicate 45 (0, 0))).2 0 0 =
        (true, ⟨0 + 1, 0 + 0, 0 + (60000 - (0 - 0))⟩)) :=
  ⟨by decide, by decide,
    checkRateLimits_boundary 0 (List.replicate 45 (0, 0)) (0, 0)
      (by decide) (by decide) (by decide) (by decide)⟩

/-! ### Retry wrapper (`services/claudeAPICall.js`, `claudeAPICall`) -/

/-- `CLAUDE_CONFIG.MAX_RETRIES` in `services/claudeAPICall.js`. -/
def CLAUDE_MAX_RETRIES : ℕ := 3

/-- `CLAUDE_CONFIG.RETRY_DELAY` (milliseconds) in `services/claudeAPICall.js`. -/
def CLAUDE_RETRY_DELAY : ℕ := 65000

/-- The token-usage value attached to a summary: the insufficient-reviews
placeholder uses the number `0` (falsy in JavaScript), a real API response
carries an `{input_tokens, output_tokens, total_tokens}` object (truthy). -/
inductive TokenUsage where
  | zero : TokenUsage
  | counts (input output total : ℕ) : TokenUsage
  deriving Repr, DecidableEq

/-- JavaScript truthiness of a `token_usage` value (`!aiSummary?.token_usage`). -/
def jsTruthyTokenUsage : TokenUsage → Bool
  | .zero => false
  | .counts _ _ _ => true

/-- The structured response object built by `claudeAPICall` on success
(`{ summary_text, token_usage }`). -/
structure AISummary where
  summary_text : String
  token_usage : TokenUsage
  deriving Repr, DecidableEq

/-- Outcome of one run of `claudeAPICall`: the returned value or the thrown
terminal error, the number of attempts that invoked the underlying operation,
and the list of between-attempt delays (milliseconds), in order. -/
structure ClaudeCallOutcome where
  result : Except String AISummary
  attempts : ℕ
  delays : List ℕ
  deriving Repr

/-- The body of `claudeAPICall`'s `for (let attempt = 0; attempt < MAX_RETRIES;
attempt++)` loop, from a given attempt index.  One attempt — the rate-limit
check, the Anthropic request and the response validation — is the oracle
`op : ℕ → Except String AISummary` giving each attempt's returned summary or
thrown error message.  `remaining` is the loop-bound fuel `MAX_RETRIES -
attempt`; the `remaining = 0` case is the loop's unreachable fall-through
(the final attempt always returns or throws first). -/
def claudeAPICallFrom (op : ℕ → Except String AISummary) :
    (remaining attempt : ℕ) → ClaudeCallOutcome
  | 0, _ => ⟨.error "", 0, []⟩
  | _r + 1, attempt =>
    match op attempt with
    | .ok s => ⟨.ok s, 1, []⟩
    | .error e =>
      if attempt = CLAUDE_MAX_RETRIES - 1 then
        ⟨.error ("Failed to generate AI summary after " ++
            toString CLAUDE_MAX_RETRIES ++ " attempts: " ++ e), 1, []⟩
      else
        let k := claudeAPICallFrom op _r (attempt + 1)
        ⟨k.result, k.attempts + 1, CLAUDE_RETRY_DELAY :: k.delays⟩

/-- `claudeAPICall(storeData)` as a function of the per-attempt oracle. -/
def claudeAPICall (op : ℕ → Except String AISummary) : ClaudeCallOutcome :=
  claudeAPICallFrom op CLAUDE_MAX_RETRIES 0

/-- **C4**: an operation that fails on every attempt (attempt `n` throws
`err n`) is invoked exactly 3 times (`MAX_RETRIES`), with the fixed 65-second
delay between consecutive attempts (two delays for three attempts), and the
terminal error references the attempt count and wraps the last underlying
error's message. -/
theorem claudeAPICall_exhaustion (err : ℕ → String) :
    claudeAPICall (fun n => .error (err n)) =
      ⟨.error ("Failed to generate AI summary after 3 attempts: " ++ err 2),
        3, [65000, 65000]⟩ := by
  rfl

/-! ### Store formatting (`utils/formatStoreDataForAI.js`) -/

/-- One element of a store's `reviews` JSON column, as read by the formatter.
`publishAt` is the review's publication instant; the source compares reviews
with `new Date(b.publishAt) - new Date(a.publishAt)`, modelled here as a
numeric timestamp (its string rendering in the output text is not modelled
bit-for-bit). -/
structure StoreReview where
  publishAt : ℕ
  stars : ℕ
  text : String
  responseFromOwnerText : Option String
  deriving Repr, DecidableEq

/-- One answer inside a `questions_and_answers` entry. -/
structure StoreQAAnswer where
  answer : String
  answeredByName : String
  answerDate : String
  deriving Repr, DecidableEq

/-- One `questions_and_answers` entry. -/
structure StoreQA where
  question : String
  askDate : String
  answers : List StoreQAAnswer
  deriving Repr, DecidableEq

/-- The columns selected by `fetchStoresDb` (`services/supabaseServicesAI.js`):
`place_id, name, subtitle, description, categories, total_score, reviews,
questions_and_answers, reviews_count`. -/
structure FetchedStore where
  place_id : String
  name : String
  subtitle : Option String
  description : Option String
  categories : List String
  total_score : Option ℚ
  reviews : List StoreReview
  questions_and_answers : List StoreQA
  reviews_count : ℕ
  deriving Repr

/-- The object returned by `formatStoreDataForAI`: only `place_id`,
`storeTextForAI` and `ai_summary` are present on it.  The caller
(`runAIProcessing` in `routes/v1/ai.routes.js`) nevertheless reads
`store.reviews_count` and `store.name` from this object; in JavaScript those
absent properties yield `undefined`, modelled by the two `Option` fields that
the formatter always sets to `none`. -/
structure FormattedStore where
  place_id : String
  storeTextForAI : String
  ai_summary : Option AISummary
  reviews_count : Option ℕ
  name : Option String
  deriving Repr

/-- Stable descending insertion for the review sort
(`[...store.reviews].sort((a, b) => new Date(b.publishAt) - new Date(a.publishAt))`). -/
def insertReviewDesc (x : StoreReview) : List StoreReview → List StoreReview
  | [] => [x]
  | y :: ys => if y.publishAt < x.publishAt then x :: y :: ys else y :: insertReviewDesc x ys

/-- Sort reviews newest-first. -/
def sortReviewsDesc : List StoreReview → List StoreReview
  | [] => []
  | x :: xs => insertReviewDesc x (sortReviewsDesc xs)

/-- The lines pushed for one review inside the reviews section. -/
def formatReviewLines (r : StoreReview) : List String :=
  ["\nReview from " ++ toString r.publishAt ++ ":",
   "Rating: " ++ toString r.stars ++ "/5 stars",
   "Customer Feedback: \"" ++ r.text ++ "\""] ++
  (if !(jsFalsyStr r.responseFromOwnerText) then
    ["Owner's Response: \"" ++ r.responseFromOwnerText.getD "" ++ "\""]
  else [])

/-- The lines pushed for one Q&A entry inside the Q&A section. -/
def formatQALines (qa : StoreQA) : List String :=
  ["\nQ: " ++ qa.question, "Asked on: " ++ qa.askDate] ++
  (if qa.answers.length > 0 then
    qa.answers.flatMap (fun a =>
      ["A: " ++ a.answer, "Answered by: " ++ a.answeredByName ++ " on " ++ a.answerDate])
  else ["(No answers provided yet)"])

/-- `formatStoreDataForAI(store, { maxReviews, maxQAs })`: builds the `parts`
array in source order and joins it with newlines; returns the object described
at `FormattedStore` (numeric-to-string rendering inside the text is
approximated by `toString`, which no claim depends on). -/
def formatStoreDataForAI (store : FetchedStore) (maxReviews maxQAs : ℕ) : FormattedStore :=
  let parts : List String :=
    ["=== STORE INFORMATION ===", "Name: " ++ store.name] ++
    (if !(jsFalsyStr store.subtitle) then
      ["Business Type: " ++ store.subtitle.getD ""] else []) ++
    (if !(jsFalsyStr store.description) then
      ["\nOfficial Description:\n" ++ store.description.getD ""] else []) ++
    (if store.categories.length > 0 then
      ["\nBusiness Categories:\n- " ++ String.intercalate "\n- " store.categories] else []) ++
    (if store.reviews.length > 0 then
      let sortedReviews := (sortReviewsDesc store.reviews).take maxReviews
      ["\n=== CUSTOMER REVIEWS ===", "Total Reviews: " ++ toString store.reviews.length] ++
      (if !(jsFalsyNum store.total_score) then
        ["Overall Rating: " ++ toString (store.total_score.getD 0) ++ "/5 stars"] else []) ++
      ["Showing " ++ toString sortedReviews.length ++ " most recent reviews:"] ++
      sortedReviews.flatMap formatReviewLines
    else []) ++
    (if store.questions_and_answers.length > 0 then
      let limitedQAs := store.questions_and_answers.take maxQAs
      ["\n=== FREQUENTLY ASKED QUESTIONS ===",
       "Showing " ++ toString limitedQAs.length ++ " questions:"] ++
      limitedQAs.flatMap formatQALines
    else [])
  { place_id := store.place_id
    storeTextForAI := String.intercalate "\n" parts
    ai_summary := none
    reviews_count := none
    name := none }

theorem formatStoreDataForAI_reviews_count (store : FetchedStore) (maxReviews maxQAs : ℕ) :
    (formatStoreDataForAI store maxReviews maxQAs).reviews_count = none := rfl

/-! ### Enrichment write path (`services/supabaseServicesAI.js`, `writeAISummariesToDb`) -/

/-- One element of the orchestrator's `processedStores` array and of the
`successful` array of `writeAISummariesToDb`: `{ place_id, ai_summary }`. -/
structure ProcessedStore where
  place_id : String
  ai_summary : AISummary
  deriving Repr, DecidableEq

/-- One element of a `failed` array: `{ place_id, error }`. -/
structure FailedStoreEntry where
  place_id : String
  error : String
  deriving Repr, DecidableEq

/-- One element of the orchestrator's `skippedStores` array: `{ place_id, reason }`. -/
structure SkippedStoreEntry where
  place_id : String
  reason : String
  deriving Repr, DecidableEq

/-- The placeholder summary the orchestrator gives an insufficient-reviews
store: `{ summary_text: "No summary available: insufficient reviews",
token_usage: 0 }`. -/
def insufficientReviewsSummary : AISummary :=
  ⟨"No summary available: insufficient reviews", .zero⟩

/-- One pass of `for (const store of batch) { … update … ; successful.push(store) }`
within one attempt of a batch.  The oracle `upd attempt place_id` is the
Supabase `update().eq("place_id", …)` outcome for that store on that attempt
(`none` = no error, `some e` = error of message `e`, which the source throws).
Returns the stores pushed onto `successful` before the throw (all of them when
no store errs) and the thrown error, if any. -/
def runUpdateAttempt (upd : ℕ → String → Option String) (attempt : ℕ) :
    List ProcessedStore → List ProcessedStore × Option String
  | [] => ([], none)
  | s :: rest =>
    match upd attempt s.place_id with
    | some e => ([], some e)
    | none =>
      let k := runUpdateAttempt upd attempt rest
      (s :: k.1, k.2)

/-- The `while (retryCount < 3 && !batchSuccess)` loop of
`writeAISummariesToDb` for one batch: up to three attempts (at `retryCount`
0, 1 and 2); every attempt restarts the per-store loop from the beginning of
the batch, so stores already pushed onto `successful` in an earlier failed
attempt stay there and are pushed again; when the third attempt also throws,
the whole batch is appended to `failed` with the last error's message. -/
def runBatchWithRetries (upd : ℕ → String → Option String) (batch : List ProcessedStore) :
    List ProcessedStore × List FailedStoreEntry :=
  let a0 := runUpdateAttempt upd 0 batch
  match a0.2 with
  | none => (a0.1, [])
  | some _ =>
    let a1 := runUpdateAttempt upd 1 batch
    match a1.2 with
    | none => (a0.1 ++ a1.1, [])
    | some _ =>
      let a2 := runUpdateAttempt upd 2 batch
      match a2.2 with
      | none => (a0.1 ++ a1.1 ++ a2.1, [])
      | some e => (a0.1 ++ a1.1 ++ a2.1, batch.map (fun s => ⟨s.place_id, e⟩))

/-- `writeAISummariesToDb(storeSummaries)`: splits the input into batches of
50 and runs each batch with retries, accumulating `successful` and `failed`
in order. -/
def writeAISummariesToDb (storeSummaries : List ProcessedStore)
    (upd : ℕ → String → Option String) :
    List ProcessedStore × List FailedStoreEntry :=
  (chunksOf 50 storeSummaries).foldl
    (fun acc batch =>
      let r := runBatchWithRetries upd batch
      (acc.1 ++ r.1, acc.2 ++ r.2))
    ([], [])

/-! ### AI processing orchestrator (`routes/v1/ai.routes.js`, `runAIProcessing`) -/

/-- `AI_CONFIG.MAX_REVIEWS` in `routes/v1/ai.routes.js`. -/
def AI_MAX_REVIEWS : ℕ := 100

/-- `AI_CONFIG.MAX_QAS` in `routes/v1/ai.routes.js`. -/
def AI_MAX_QAS : ℕ := 100

/-- The terminal ledger of one `runAIProcessing` run: `totalStores` and the
three outcome collections (`processedStores` after the database write — the
run's succeeded collection, reported as `successful` in the final summary —
plus `processingDetails.failedStores` and `processingDetails.skippedStores`). -/
structure ProcessingDetails where
  totalStores : ℕ
  succeededStores : List ProcessedStore
  failedStores : List FailedStoreEntry
  skippedStores : List SkippedStoreEntry
  deriving Repr, DecidableEq

/-- The `for (const store of formattedStores)` loop of `runAIProcessing`:
per store, the review-count gate (`store.reviews_count < 10`, evaluated with
JavaScript `undefined` semantics via `jsUndefLt`), then the Claude call
(oracle `api`), then the response-shape validation
(`!aiSummary?.summary_text || !aiSummary?.token_usage`).  Returns
(`processedStores`, `failedStores`, `skippedStores`) in input order. -/
def processStoresLoop (api : FormattedStore → Except String AISummary) :
    List FormattedStore →
    List ProcessedStore × List FailedStoreEntry × List SkippedStoreEntry
  | [] => ([], [], [])
  | st :: rest =>
    let k := processStoresLoop api rest
    if jsUndefLt st.reviews_count 10 then
      (⟨st.place_id, insufficientReviewsSummary⟩ :: k.1, k.2.1,
        ⟨st.place_id,
          "Insufficient reviews (" ++ jsShowOptNat st.reviews_count ++ "/10 required)"⟩
          :: k.2.2)
    else
      match api st with
      | .error e => (k.1, ⟨st.place_id, e⟩ :: k.2.1, k.2.2)
      | .ok s =>
        if s.summary_text.isEmpty || !(jsTruthyTokenUsage s.token_usage) then
          (k.1, ⟨st.place_id, "Invalid AI summary structure received"⟩ :: k.2.1, k.2.2)
        else
          (⟨st.place_id, s⟩ :: k.1, k.2.1, k.2.2)

/-- `runAIProcessing()` (the `routes/v1/ai.routes.js` variant with the
review-count gate): fetch (given as `fetchedStores`), format, per-store loop,
then — when `processedStores` is non-empty — `writeAISummariesToDb`, whose
`failed` entries are appended to `failedStores` as
`Database write failed: <error || "Unknown error">` and whose `successful`
array replaces `processedStores`.  The catastrophic catch branches
(formatting produced an empty array; `writeAISummariesToDb` itself throwing)
are the `Except.error` cases; the embedded write cannot throw, so its
catch is unreachable here. -/
def runAIProcessing (fetchedStores : List FetchedStore)
    (api : FormattedStore → Except String AISummary)
    (upd : ℕ → String → Option String) : Except String ProcessingDetails :=
  let formattedStores :=
    fetchedStores.map (fun s => formatStoreDataForAI s AI_MAX_REVIEWS AI_MAX_QAS)
  if formattedStores.isEmpty then
    .error "AI processing job failed: Store formatting failed"
  else
    let r := processStoresLoop api formattedStores
    let w :=
      if r.1.isEmpty then (r.1, ([] : List FailedStoreEntry))
      else
        let wr := writeAISummariesToDb r.1 upd
        (wr.1, wr.2.map (fun f =>
          (⟨f.place_id,
            "Database write failed: " ++ (if f.error.isEmpty then "Unknown error" else f.error)⟩
            : FailedStoreEntry)))
    .ok { totalStores := formattedStores.length
          succeededStores := w.1
          failedStores := r.2.1 ++ w.2
          skippedStores := r.2.2 }

/-! ### Claims C1, C2, C6, C10 -/

/-- Every formatted store carries no `reviews_count` property, so the
review-count gate never fires and nothing can reach `skippedStores`. -/
theorem processStoresLoop_skipped_nil (api : FormattedStore → Except String AISummary) :
    ∀ l : List FormattedStore, (∀ st ∈ l, st.reviews_count = none) →
    (processStoresLoop api l).2.2 = [] := by
  intro l
  induction l with
  | nil => intro _; rfl
  | cons st rest ih =>
      intro h
      have hst : st.reviews_count = none := h st (List.mem_cons_self st rest)
      have hrest := ih (fun d hd => h d (List.mem_cons_of_mem st hd))
      simp only [processStoresLoop, hst]
      show (match api st with
        | .error e => ((processStoresLoop api rest).1,
            (⟨st.place_id, e⟩ : FailedStoreEntry) :: (processStoresLoop api rest).2.1,
            (processStoresLoop api rest).2.2)
        | .ok s =>
          if s.summary_text.isEmpty || !(jsTruthyTokenUsage s.token_usage) then
            ((processStoresLoop api rest).1,
              (⟨st.place_id, "Invalid AI summary structure received"⟩ : FailedStoreEntry)
                :: (processStoresLoop api rest).2.1,
              (processStoresLoop api rest).2.2)
          else
            ((⟨st.place_id, s⟩ : ProcessedStore) :: (processStoresLoop api rest).1,
              (processStoresLoop api rest).2.1, (processStoresLoop api rest).2.2)).2.2 = []
      cases api st with
      | error e => exact hrest
      | ok s =>
          by_cases hv : s.summary_text.isEmpty || !(jsTruthyTokenUsage s.token_usage)
          · simp only [hv, if_true]
            exact hrest
          · simp only [hv, if_false]
            exact hrest

/-- **C10**: in every `runAIProcessing` run that returns a ledger, the
`skippedStores` collection is empty — the orchestrator never classifies any
store as skipped (because `formatStoreDataForAI` drops `reviews_count`, the
gate compares `undefined < 10`), so in particular the insufficient-reviews
placeholder is never submitted to `writeAISummariesToDb` and no store ever
leaves the unprocessed candidate set by being skipped. -/
theorem runAIProcessing_never_skips
    (fetchedStores : List FetchedStore)
    (api : FormattedStore → Except String AISummary)
    (upd : ℕ → String → Option String)
    (d : ProcessingDetails)
    (h : runAIProcessing fetchedStores api upd = Except.ok d) :
    d.skippedStores = [] := by
  unfold runAIProcessing at h
  simp only [] at h
  split at h
  · exact absurd h (by simp)
  · injection h with h2
    rw [← h2]
    exact processStoresLoop_skipped_nil api _
      (by
        intro st hst
        rcases List.mem_map.mp hst with ⟨s, _, rfl⟩
        exact formatStoreDataForAI_reviews_count s _ _)

/-- A minimal fetched store with a given place id and recorded review count. -/
def mkFetchedStore (pid : String) (rc : ℕ) : FetchedStore :=
  { place_id := pid, name := "Shop", subtitle := none, description := none,
    categories := [], total_score := none, reviews := [], questions_and_answers := [],
    reviews_count := rc }

/-- Witness for `runAIProcessing_never_skips` at a concrete input: a single
store whose recorded review count is 9, a summarizer oracle that fails, and a
database that accepts every write. -/
theorem runAIProcessing_never_skips_witness :
    (⟨1, [], [⟨"c10-store", "unavailable"⟩], []⟩ : ProcessingDetails).skippedStores = [] :=
  runAIProcessing_never_skips [mkFetchedStore "c10-store" 9]
    (fun _ => .error "unavailable") (fun _ _ => none)
    ⟨1, [], [⟨"c10-store", "unavailable"⟩], []⟩ (by rfl)

/-- **C2** (divergence witness): running the orchestrator over one store with
9 recorded reviews and one with 10, with a summarizer oracle that records the
attempt in its error message, classifies *neither* store as skipped and
attempts a summarization call for *both* — the 9-review store is not skipped,
because the formatted object `formatStoreDataForAI` hands the gate carries no
`reviews_count` and `undefined < 10` is false in JavaScript. -/
theorem reviewGate_not_applied_at_nine :
    runAIProcessing [mkFetchedStore "nine" 9, mkFetchedStore "ten" 10]
        (fun st => .error ("summarization attempted for " ++ st.place_id))
        (fun _ _ => none) =
      Except.ok ⟨2, [],
        [⟨"nine", "summarization attempted for nine"⟩,
         ⟨"ten", "summarization attempted for ten"⟩], []⟩ := by
  rfl

/-- A well-formed summarizer result used by the ledger-partition run. -/
def confirmedSummary : AISummary :=
  ⟨"Confirmed e-scooter repair shop.", .counts 500 80 580⟩

/-- **C1** (divergence witness): a run over two stores whose summarization
both succeed, against a database that accepts the first store's write and
rejects the second store's on all three attempts of their shared batch, ends
with |succeeded| + |failed| + |skipped| = 3 + 2 + 0 = 5 ≠ 2 = N, the first
store appearing three times in the succeeded collection *and* once in the
failed collection. -/
theorem runAIProcessing_partition_violated :
    runAIProcessing [mkFetchedStore "c1-a" 50, mkFetchedStore "c1-b" 50]
        (fun _ => .ok confirmedSummary)
        (fun _ pid => if pid = "c1-b" then some "db down" else none) =
      Except.ok
        ⟨2,
          [⟨"c1-a", confirmedSummary⟩, ⟨"c1-a", confirmedSummary⟩, ⟨"c1-a", confirmedSummary⟩],
          [⟨"c1-a", "Database write failed: db down"⟩,
           ⟨"c1-b", "Database write failed: db down"⟩],
          []⟩ ∧
    (3 : ℕ) + 2 + 0 ≠ 2 := by
  exact ⟨by rfl, by decide⟩

/-- **C6** (divergence witness): `writeAISummariesToDb` over one batch of two
stores, where the first store's update always succeeds and the second's always
fails, exhausts the batch's three attempts and appends the whole batch to
`failed` — but the first store is *also* pushed onto `successful` once per
attempt, so it appears in both collections and `successful` holds three
duplicates; the batch is not the unit of failure and
successful/failed is not a duplicate-free partition of the input. -/
theorem writeAISummaries_batch_unit_violated :
    writeAISummariesToDb [⟨"c6-ok", confirmedSummary⟩, ⟨"c6-bad", confirmedSummary⟩]
        (fun _ pid => if pid = "c6-bad" then some "write refused" else none) =
      ([⟨"c6-ok", confirmedSummary⟩, ⟨"c6-ok", confirmedSummary⟩, ⟨"c6-ok", confirmedSummary⟩],
       [⟨"c6-ok", "write refused"⟩, ⟨"c6-bad", "write refused"⟩]) := by
  rfl

/-! ### Scrape-side store write path (`services/supabaseService.js`, `writeStores`) -/

/-- A store record as passed to `writeStores`.  The function touches only
`place_id` (validity filter, upsert conflict key, new-vs-updated
classification) and `name` (logging); the remaining scraped columns ride
along unchanged and are not modelled. -/
structure InputStore where
  place_id : Option String
  name : Option String
  deriving Repr, DecidableEq

/-- The `results` object accumulated by `writeStores`. -/
structure WriteStoresResults where
  successful : List InputStore
  failed : List InputStore
  newStores : List InputStore
  updatedStores : List InputStore
  deriving Repr, DecidableEq

/-- A `for (let attempt = 1; attempt <= MAX_RETRIES; attempt++)` block with
`MAX_RETRIES = 3`: `f attempt` is the attempt's thrown error (`none` =
success, which `break`s).  Returns `none` on any success and the *last*
attempt's error when all three fail. -/
def tryAttempts3 (f : ℕ → Option String) : Option String :=
  match f 1 with
  | none => none
  | some _ =>
    match f 2 with
    | none => none
    | some _ => f 3

/-- The fetch-existing-stores loop of `writeStores`: per chunk of `place_id`s
(chunk ordinal `idx`), up to three attempts of
`select("place_id").in("place_id", chunk)` — the oracle
`fetchR idx attempt` is the attempt's error, and `dbExists` is the pre-write
database membership of a `place_id`.  A chunk that exhausts its retries
throws, aborting the whole write. -/
def fetchExistingChunks (dbExists : String → Bool) (fetchR : ℕ → ℕ → Option String) :
    List (List String) → ℕ → Except String (List String)
  | [], _ => .ok []
  | c :: rest, idx =>
    match tryAttempts3 (fetchR idx) with
    | some e => .error ("Failed to fetch existing stores chunk: " ++ e)
    | none =>
      match fetchExistingChunks dbExists fetchR rest (idx + 1) with
      | .error e => .error e
      | .ok more => .ok (c.filter dbExists ++ more)

/-- The batched upsert loop of `writeStores`: per batch (1-based
`batchNumber`), up to three attempts of `upsert(batch, { onConflict:
"place_id" })` — the oracle `upsertR batchNumber attempt` is the attempt's
error.  A successful batch is appended to `successful` and each of its
members classified new-vs-updated against the pre-fetched `existingPlaceIds`
set; a batch that exhausts its retries is appended to `failed` and later
batches proceed. -/
def writeChunksLoop (existingPlaceIds : List String) (upsertR : ℕ → ℕ → Option String) :
    List (List InputStore) → ℕ → WriteStoresResults
  | [], _ => ⟨[], [], [], []⟩
  | batch :: rest, b =>
    let k := writeChunksLoop existingPlaceIds upsertR rest (b + 1)
    match tryAttempts3 (upsertR b) with
    | none =>
      ⟨batch ++ k.successful, k.failed,
        batch.filter (fun s => !(existingPlaceIds.contains (s.place_id.getD ""))) ++ k.newStores,
        batch.filter (fun s => existingPlaceIds.contains (s.place_id.getD "")) ++ k.updatedStores⟩
    | some _ => ⟨k.successful, batch ++ k.failed, k.newStores, k.updatedStores⟩

/-- `writeStores(stores)` with `BATCH_SIZE = 100` and `MAX_RETRIES = 3`:
filter out records with a falsy `place_id` (each drop logged), throw when
nothing remains, pre-fetch which of the candidate ids already exist (chunked,
retried, aborting on exhaustion), then run the batched upsert loop.  The
source finally reports the counts of these four lists in its `summary`
return value; the embedding returns the lists themselves. -/
def writeStores (stores : List InputStore) (dbExists : String → Bool)
    (fetchR : ℕ → ℕ → Option String) (upsertR : ℕ → ℕ → Option String) :
    Except String WriteStoresResults :=
  if stores.isEmpty then .error "No stores provided to write"
  else
    let validStores := stores.filter (fun s => !(jsFalsyStr s.place_id))
    if validStores.isEmpty then .error "No valid stores to write after filtering"
    else
      let placeIds :=
        ((validStores.map (fun s => s.place_id)).filterMap id).filter (fun p => !p.isEmpty)
      match (if placeIds.isEmpty then Except.ok []
        else fetchExistingChunks dbExists fetchR (chunksOf 100 placeIds) 0) with
      | .error e => .error e
      | .ok existingStores =>
        .ok (writeChunksLoop existingStores upsertR (chunksOf 100 validStores) 1)

theorem writeChunksLoop_filters (E : List String) (upsR : ℕ → ℕ → Option String) :
    ∀ (chunks : List (List InputStore)) (b : ℕ),
    (writeChunksLoop E upsR chunks b).newStores =
      (writeChunksLoop E upsR chunks b).successful.filter
        (fun s => !(E.contains (s.place_id.getD ""))) ∧
    (writeChunksLoop E upsR chunks b).updatedStores =
      (writeChunksLoop E upsR chunks b).successful.filter
        (fun s => E.contains (s.place_id.getD "")) := by
  intro chunks
  induction chunks with
  | nil => intro b; exact ⟨rfl, rfl⟩
  | cons batch rest ih =>
      intro b
      have ihb := ih (b + 1)
      simp only [writeChunksLoop]
      cases htry : tryAttempts3 (upsR b) with
      | none =>
          simp only [List.filter_append]
          exact ⟨by rw [ihb.1], by rw [ihb.2]⟩
      | some e => exact ihb

theorem writeChunksLoop_partition (E : List String) (upsR : ℕ → ℕ → Option String) :
    ∀ (chunks : List (List InputStore)) (b : ℕ),
    (writeChunksLoop E upsR chunks b).successful.length +
      (writeChunksLoop E upsR chunks b).failed.length = chunks.flatten.length := by
  intro chunks
  induction chunks with
  | nil => intro b; rfl
  | cons batch rest ih =>
      intro b
      have ihb := ih (b + 1)
      simp only [writeChunksLoop, List.flatten_cons, List.length_append]
      cases htry : tryAttempts3 (upsR b) with
      | none =>
          simp only [List.length_append]
          omega
      | some e =>
          simp only [List.length_append]
          omega

theorem fetchExistingChunks_allOk (dbE : String → Bool) :
    ∀ (chunks : List (List String)) (idx : ℕ),
    fetchExistingChunks dbE (fun _ _ => none) chunks idx =
      .ok (chunks.flatten.filter dbE) := by
  intro chunks
  induction chunks with
  | nil => intro idx; rfl
  | cons c rest ih =>
      intro idx
      simp only [fetchExistingChunks, tryAttempts3, ih (idx + 1),
        List.flatten_cons, List.filter_append]

theorem writeStores_ok_shape (stores : List InputStore) (dbE : String → Bool)
    (fR uR : ℕ → ℕ → Option String) (r : WriteStoresResults)
    (h : writeStores stores dbE fR uR = Except.ok r) :
    ∃ E, r = writeChunksLoop E uR
      (chunksOf 100 (stores.filter (fun s => !(jsFalsyStr s.place_id)))) 1 := by
  unfold writeStores at h
  simp only [] at h
  split at h
  · simp at h
  · split at h
    · simp at h
    · split at h
      · simp at h
      · injection h with h2
        exact ⟨_, h2.symm⟩

theorem writeStores_allOk_eq (stores : List InputStore) (dbE : String → Bool)
    (uR : ℕ → ℕ → Option String)
    (hne : stores ≠ [])
    (hvalid : ∀ s ∈ stores, jsFalsyStr s.place_id = false) :
    ∃ E, writeStores stores dbE (fun _ _ => none) uR =
      Except.ok (writeChunksLoop E uR (chunksOf 100 stores) 1) := by
  have hfilter : stores.filter (fun s => !(jsFalsyStr s.place_id)) = stores := by
    rw [List.filter_eq_self]
    intro s hs
    rw [hvalid s hs]
    rfl
  have hie : stores.isEmpty = false := by
    cases stores with
    | nil => exact absurd rfl hne
    | cons a t => rfl
  unfold writeStores
  simp only [hfilter, hie, Bool.false_eq_true, if_false]
  by_cases hpe :
      (((stores.map (fun s => s.place_id)).filterMap id).filter (fun p => !p.isEmpty)).isEmpty
  · exact ⟨[], by simp only [hpe, if_true]⟩
  · refine ⟨(chunksOf 100 (((stores.map (fun s => s.place_id)).filterMap id).filter
        (fun p => !p.isEmpty))).flatten.filter dbE, ?_⟩
    simp only [hpe, Bool.false_eq_true, if_false, fetchExistingChunks_allOk]

/-- **C5**: (scenario) for 250 valid input stores with chunk size 100, when
the second chunk's upsert throws on every one of its 3 attempts and all other
chunks succeed, exactly the 150 stores of chunks 1 and 3 land in `successful`
and exactly the 100 stores of chunk 2 land in `failed`; (in general) for any
oracles, whenever `writeStores` returns, `successful.length + failed.length`
equals the count of valid input records and every successful record is
classified into exactly one of `newStores`/`updatedStores` by pre-write
existence of its `place_id`. -/
theorem writeStores_chunk_fault_isolation :
    (∀ (stores : List InputStore) (dbExists : String → Bool) (e : String),
      stores.length = 250 →
      (∀ s ∈ stores, jsFalsyStr s.place_id = false) →
      ∃ r, writeStores stores dbExists (fun _ _ => none)
            (fun b _ => if b = 2 then some e else none) = Except.ok r ∧
        r.successful = stores.take 100 ++ stores.drop 200 ∧
        r.failed = (stores.drop 100).take 100 ∧
        r.successful.length = 150 ∧ r.failed.length = 100) ∧
    (∀ (stores : List InputStore) (dbExists : String → Bool)
        (fetchR upsertR : ℕ → ℕ → Option String) (r : WriteStoresResults),
      writeStores stores dbExists fetchR upsertR = Except.ok r →
      r.successful.length + r.failed.length =
        (stores.filter (fun s => !(jsFalsyStr s.place_id))).length ∧
      ∀ s ∈ r.successful,
        (s ∈ r.newStores ∧ s ∉ r.updatedStores) ∨
        (s ∈ r.updatedStores ∧ s ∉ r.newStores)) := by
  constructor
  · intro stores dbE e h250 hvalid
    have hne : stores ≠ [] := by
      intro hh; rw [hh] at h250; simp at h250
    obtain ⟨E, heq⟩ := writeStores_allOk_eq stores dbE
      (fun b _ => if b = 2 then some e else none) hne hvalid
    have hd100 : (stores.drop 100).length = 150 := by
      simp [List.length_drop, h250]
    have hd200 : ((stores.drop 100).drop 100).length = 50 := by
      simp [List.length_drop, h250]
    have hchunks : chunksOf 100 stores =
        [stores.take 100, (stores.drop 100).take 100, (stores.drop 100).drop 100] := by
      rw [chunksOf_ne_nil 100 stores hne (by decide)]
      rw [chunksOf_ne_nil 100 (stores.drop 100)
        (by intro hh; rw [hh] at hd100; simp at hd100) (by decide)]
      rw [chunksOf_ne_nil 100 ((stores.drop 100).drop 100)
        (by intro hh; rw [hh] at hd200; simp at hd200) (by decide)]
      have hnil : ((stores.drop 100).drop 100).drop 100 = [] := by
        apply List.drop_eq_nil_of_le
        rw [hd200]; omega
      have htake : ((stores.drop 100).drop 100).take 100 = (stores.drop 100).drop 100 := by
        apply List.take_of_length_le
        rw [hd200]; omega
      rw [hnil, chunksOf_nil, htake]
    have hloop : writeChunksLoop E (fun b _ => if b = 2 then some e else none)
        [stores.take 100, (stores.drop 100).take 100, (stores.drop 100).drop 100] 1 =
        ⟨stores.take 100 ++ (stores.drop 100).drop 100,
         (stores.drop 100).take 100,
         (stores.take 100).filter (fun s => !(E.contains (s.place_id.getD ""))) ++
           ((stores.drop 100).drop 100).filter (fun s => !(E.contains (s.place_id.getD ""))),
         (stores.take 100).filter (fun s => E.contains (s.place_id.getD "")) ++
           ((stores.drop 100).drop 100).filter (fun s => E.contains (s.place_id.getD ""))⟩ := by
      simp [writeChunksLoop, tryAttempts3]
    refine ⟨_, heq, ?_, ?_, ?_, ?_⟩
    · rw [hchunks, hloop]
      simp [List.drop_drop]
    · rw [hchunks, hloop]
    · rw [hchunks, hloop]
      simp only [List.length_append, List.length_take, List.length_drop, h250]
      omega
    · rw [hchunks, hloop]
      simp only [List.length_take, List.length_drop, h250]
      omega
  · intro stores dbE fR uR r h
    obtain ⟨E, hr⟩ := writeStores_ok_shape stores dbE fR uR r h
    subst hr
    constructor
    · rw [writeChunksLoop_partition, chunksOf_join 100 (by decide)]
    · intro s hs
      have hf := writeChunksLoop_filters E uR
        (chunksOf 100 (stores.filter (fun s => !(jsFalsyStr s.place_id)))) 1
      by_cases hc : E.contains (s.place_id.getD "") = true
      · right
        constructor
        · rw [hf.2]
          exact List.mem_filter.mpr ⟨hs, hc⟩
        · rw [hf.1]
          intro hmem
          have h2 := (List.mem_filter.mp hmem).2
          rw [hc] at h2
          simp at h2
      · have hc' : E.contains (s.place_id.getD "") = false := by
          cases hb : E.contains (s.place_id.getD "") with
          | false => rfl
          | true => exact absurd hb hc
        left
        constructor
        · rw [hf.1]
          exact List.mem_filter.mpr ⟨hs, by rw [hc']; rfl⟩
        · rw [hf.2]
          intro hmem
          exact hc ((List.mem_filter.mp hmem).2)

/-- 250 concrete valid stores for the chunked-write scenario. -/
def c5Stores : List InputStore :=
  (List.range 250).map (fun i => ⟨some ("p" ++ toString i), some "store"⟩)

set_option maxRecDepth 100000 in
/-- Witness for `writeStores_chunk_fault_isolation` at a concrete input:
250 concrete stores, an empty pre-write database, an all-success fetch oracle
and an upsert oracle that fails exactly batch 2 on every attempt. -/
theorem writeStores_chunk_fault_isolation_witness :
    c5Stores.length = 250 ∧
    (∀ s ∈ c5Stores, jsFalsyStr s.place_id = false) ∧
    (∃ r, writeStores c5Stores (fun _ => false) (fun _ _ => none)
        (fun b _ => if b = 2 then some "chunk upsert failed" else none) = Except.ok r ∧
      r.successful.length = 150 ∧ r.failed.length = 100 ∧
      r.successful.length + r.failed.length =
        (c5Stores.filter (fun s => !(jsFalsyStr s.place_id))).length ∧
      ∀ s ∈ r.successful,
        (s ∈ r.newStores ∧ s ∉ r.updatedStores) ∨
        (s ∈ r.updatedStores ∧ s ∉ r.newStores)) := by
  have h1 : c5Stores.length = 250 := by simp [c5Stores]
  have h2 : ∀ s ∈ c5Stores, jsFalsyStr s.place_id = false := by decide
  obtain ⟨r, hr, _, _, hl1, hl2⟩ :=
    writeStores_chunk_fault_isolation.1 c5Stores (fun _ => false) "chunk upsert failed" h1 h2
  have hgen := writeStores_chunk_fault_isolation.2 c5Stores (fun _ => false)
    (fun _ _ => none) (fun b _ => if b = 2 then some "chunk upsert failed" else none) r hr
  exact ⟨h1, h2, r, hr, hl1, hl2, hgen.1, hgen.2⟩

/-! ### Listing scraper transform (`services/apifyService.js`, `transformStoreData`
and the transform/filter pipeline of `crawlerGooglePlaces`) -/

/-- The nested `location` block of a raw provider record. -/
structure RawLocation where
  lat : Option ℚ
  lng : Option ℚ
  deriving Repr, DecidableEq

/-- One raw listing record from the places provider, with the properties read
by `transformStoreData`.  Nested collections the transform passes through
unchanged (reviews, tags, Q&A, …) are modelled as opaque optional payload
strings. -/
structure RawItem where
  placeId : Option String
  searchString : Option String
  searchPageUrl : Option String
  url : Option String
  title : Option String
  subTitle : Option String
  description : Option String
  categoryName : Option String
  categories : Option (List String)
  website : Option String
  phone : Option String
  permanentlyClosed : Option Bool
  temporarilyClosed : Option Bool
  address : Option String
  street : Option String
  city : Option String
  state : Option String
  postalCode : Option String
  countryCode : Option String
  neighborhood : Option String
  locatedIn : Option String
  plusCode : Option String
  location : Option RawLocation
  openingHours : Option String
  totalScore : Option ℚ
  reviewsCount : Option ℕ
  reviewsDistribution : Option String
  reviewsTags : Option String
  reviews : Option String
  placesTags : Option String
  additionalInfo : Option String
  questionsAndAnswers : Option String
  ownerUpdates : Option String
  peopleAlsoSearch : Option String
  deriving Repr, DecidableEq

/-- A transformed store in the canonical schema produced by
`transformStoreData` (the validating `services/apifyService.js` variant). -/
structure Store where
  place_id : String
  search_string : Option String
  search_page_url : Option String
  maps_url : Option String
  name : String
  subtitle : Option String
  description : Option String
  category_name : Option String
  categories : List String
  website : Option String
  phone : Option String
  permanently_closed : Bool
  temporarily_closed : Bool
  address : Option String
  street : Option String
  city : Option String
  state : Option String
  postal_code : Option String
  country_code : Option String
  neighborhood : Option String
  located_in : Option String
  plus_code : Option String
  latitude : Option ℚ
  longitude : Option ℚ
  opening_hours : Option String
  total_score : Option ℚ
  reviews_count : Option ℕ
  reviews_distribution : Option String
  reviews_tags : Option String
  reviews : Option String
  places_tags : Option String
  additional_info : Option String
  questions_and_answers : Option String
  owner_updates : Option String
  people_also_search : Option String
  scraped_at : String
  last_updated : String
  deriving Repr, DecidableEq

/-- JavaScript `s.toLowerCase()` (per-character lowering; the store names the
filter inspects are ASCII). -/
def jsToLower (s : String) : String := ⟨s.data.map Char.toLower⟩

/-- Whether the first character list is a prefix of the second. -/
def charsHavePrefix : List Char → List Char → Bool
  | [], _ => true
  | _ :: _, [] => false
  | a :: as, b :: bs => a == b && charsHavePrefix as bs

/-- Whether `pat` occurs as a contiguous run inside the second list. -/
def charsInclude (pat : List Char) : List Char → Bool
  | [] => pat.isEmpty
  | b :: rest => charsHavePrefix pat (b :: rest) || charsInclude pat rest

/-- JavaScript `s.includes(sub)`: substring occurrence. -/
def jsIncludes (s sub : String) : Bool := charsInclude sub.data s.data

/-- `transformStoreData(item)`: throws (→ caught, logged, `null` returned)
when a required field (`placeId`, `title`) is falsy, or when a `location`
block is present with a falsy `lat` or `lng`; otherwise maps the raw record
into the canonical schema (`categories` defaulting to `[]`, the closure flags
to `false`, `latitude`/`longitude` read through the optional `location`).
`now` is the ambient clock's ISO string for the two timestamps. -/
def transformStoreData (now : String) (item : RawItem) : Option Store :=
  if jsFalsyStr item.placeId || jsFalsyStr item.title then none
  else if (match item.location with
    | some loc => jsFalsyNum loc.lat || jsFalsyNum loc.lng
    | none => false) then none
  else some
    { place_id := item.placeId.getD ""
      search_string := item.searchString
      search_page_url := item.searchPageUrl
      maps_url := item.url
      name := item.title.getD ""
      subtitle := item.subTitle
      description := item.description
      category_name := item.categoryName
      categories := jsOrElse item.categories []
      website := item.website
      phone := item.phone
      permanently_closed := jsOrElse item.permanentlyClosed false
      temporarily_closed := jsOrElse item.temporarilyClosed false
      address := item.address
      street := item.street
      city := item.city
      state := item.state
      postal_code := item.postalCode
      country_code := item.countryCode
      neighborhood := item.neighborhood
      located_in := item.locatedIn
      plus_code := item.plusCode
      latitude := item.location.bind (fun loc => loc.lat)
      longitude := item.location.bind (fun loc => loc.lng)
      opening_hours := item.openingHours
      total_score := item.totalScore
      reviews_count := item.reviewsCount
      reviews_distribution := item.reviewsDistribution
      reviews_tags := item.reviewsTags
      reviews := item.reviews
      places_tags := item.placesTags
      additional_info := item.additionalInfo
      questions_and_answers := item.questionsAndAnswers
      owner_updates := item.ownerUpdates
      people_also_search := item.peopleAlsoSearch
      scraped_at := now
      last_updated := now }

/-- The transform-and-filter section of `crawlerGooglePlaces` (after the
actor run): map every raw item through `transformStoreData`, counting the
`null` results as `validationFailures`, drop the `null`s, then drop stores
whose lowercased name includes `"walmart"` or `"target"`.  Returns the
surviving stores and the validation-failure count. -/
def transformAndFilterStores (now : String) (items : List RawItem) : List Store × ℕ :=
  let results := items.map (transformStoreData now)
  let validationFailures := (results.filter (fun r => r.isNone)).length
  let stores := (results.filterMap id).filter (fun store =>
    !(jsIncludes (jsToLower store.name) "walmart") && !(jsIncludes (jsToLower store.name) "target"))
  (stores, validationFailures)

/-- **C8**: for a scrape whose provider run yields 3 raw records where the
second is missing its external id (`placeId` falsy) and the other two are
transformable and not excluded by the big-box name filter, the pipeline
returns exactly the 2 transformed stores (in order) and reports
`validationFailures = 1` — the bad record is dropped without aborting the
batch. -/
theorem crawler_scenario_three_records (now : String) (r1 r2 r3 : RawItem)
    (h1p : jsFalsyStr r1.placeId = false) (h1t : jsFalsyStr r1.title = false)
    (h1loc : (match r1.location with
      | some loc => jsFalsyNum loc.lat || jsFalsyNum loc.lng
      | none => false) = false)
    (h1w : jsIncludes (jsToLower (r1.title.getD "")) "walmart" = false)
    (h1g : jsIncludes (jsToLower (r1.title.getD "")) "target" = false)
    (h2p : jsFalsyStr r2.placeId = true)
    (h3p : jsFalsyStr r3.placeId = false) (h3t : jsFalsyStr r3.title = false)
    (h3loc : (match r3.location with
      | some loc => jsFalsyNum loc.lat || jsFalsyNum loc.lng
      | none => false) = false)
    (h3w : jsIncludes (jsToLower (r3.title.getD "")) "walmart" = false)
    (h3g : jsIncludes (jsToLower (r3.title.getD "")) "target" = false) :
    ∃ s1 s3, transformStoreData now r1 = some s1 ∧ transformStoreData now r3 = some s3 ∧
      transformAndFilterStores now [r1, r2, r3] = ([s1, s3], 1) := by
  have hname : ∀ (item : RawItem) (s : Store), transformStoreData now item = some s →
      s.name = item.title.getD "" := by
    intro item s h
    unfold transformStoreData at h
    split at h
    · simp at h
    · split at h
      · simp at h
      · injection h with h2
        rw [← h2]
  have ht2 : transformStoreData now r2 = none := by
    unfold transformStoreData
    rw [if_pos (by rw [h2p]; rfl)]
  have he1 : ∃ s, transformStoreData now r1 = some s := by
    unfold transformStoreData
    rw [if_neg (by rw [h1p, h1t]; simp), if_neg (by rw [h1loc]; simp)]
    exact ⟨_, rfl⟩
  have he3 : ∃ s, transformStoreData now r3 = some s := by
    unfold transformStoreData
    rw [if_neg (by rw [h3p, h3t]; simp), if_neg (by rw [h3loc]; simp)]
    exact ⟨_, rfl⟩
  obtain ⟨s1, hs1⟩ := he1
  obtain ⟨s3, hs3⟩ := he3
  have hn1 := hname r1 s1 hs1
  have hn3 := hname r3 s3 hs3
  refine ⟨s1, s3, hs1, hs3, ?_⟩
  unfold transformAndFilterStores
  simp only [List.map_cons, List.map_nil, hs1, ht2, hs3]
  have hfm : List.filterMap id [some s1, none, some s3] = [s1, s3] := by simp
  have hcnt :
      (List.filter (fun r : Option Store => r.isNone) [some s1, none, some s3]).length = 1 := by
    simp
  rw [hfm, hcnt]
  refine Prod.ext ?_ rfl
  show List.filter
      (fun store => !jsIncludes (jsToLower store.name) "walmart" &&
        !jsIncludes (jsToLower store.name) "target") [s1, s3] = [s1, s3]
  rw [List.filter_eq_self]
  intro s hs
  rcases List.mem_pair.mp hs with h | h
  · subst h
    rw [hn1, h1w, h1g]
    rfl
  · subst h
    rw [hn3, h3w, h3g]
    rfl

/-- A raw provider record with every property absent. -/
def emptyRawItem : RawItem :=
  ⟨none, none, none, none, none, none, none, none, none, none, none, none, none,
   none, none, none, none, none, none, none, none, none, none, none, none, none,
   none, none, none, none, none, none, none, none⟩

/-- A transformable raw record: external id, display name and a complete
location block. -/
def c8Rec1 : RawItem :=
  { emptyRawItem with
      placeId := some "pl-1"
      title := some "Scooter Fix"
      location := some ⟨some 37, some (-122)⟩ }

/-- A second transformable raw record. -/
def c8Rec3 : RawItem :=
  { emptyRawItem with
      placeId := some "pl-3"
      title := some "Wheel Works"
      location := some ⟨some 28, some (-81)⟩ }

/-- Witness for `crawler_scenario_three_records` at a concrete input: three
raw records of which the middle one is missing its `placeId`. -/
theorem crawler_scenario_three_records_witness :
    jsFalsyStr c8Rec1.placeId = false ∧
    jsFalsyStr emptyRawItem.placeId = true ∧
    jsFalsyStr c8Rec3.placeId = false ∧
    (∃ s1 s3, transformStoreData "2025-01-01T00:00:00.000Z" c8Rec1 = some s1 ∧
      transformStoreData "2025-01-01T00:00:00.000Z" c8Rec3 = some s3 ∧
      transformAndFilterStores "2025-01-01T00:00:00.000Z" [c8Rec1, emptyRawItem, c8Rec3] =
        ([s1, s3], 1)) :=
  ⟨by decide, by decide, by decide,
    crawler_scenario_three_records "2025-01-01T00:00:00.000Z" c8Rec1 emptyRawItem c8Rec3
      (by decide) (by decide) (by decide) (by decide) (by decide)
      (by decide)
      (by decide) (by decide) (by decide) (by decide) (by decide)⟩

/-! ### Proximity search (`services/supabaseServicesSearch.js`, `searchStores`) -/

/-- One row returned by the `nearby_stores` stored procedure (nearest-first,
with a computed `distance_meters` column). -/
structure NearbyRow where
  id : ℕ
  name : String
  address : Option String
  description : Option String
  category_name : Option String
  website : Option String
  phone : Option String
  opening_hours : Option String
  total_score : Option ℚ
  reviews_count : Option ℕ
  additional_info : Option String
  ai_summary : Option String
  last_updated : Option String
  maps_url : Option String
  distance_meters : ℚ
  deriving Repr, DecidableEq

/-- One store of the search response, with the converted `distance_miles`. -/
structure SearchStoreOut where
  id : ℕ
  name : String
  address : Option String
  description : Option String
  category_name : Option String
  website : Option String
  phone : Option String
  opening_hours : Option String
  total_score : Option ℚ
  reviews_count : Option ℕ
  additional_info : Option String
  ai_summary : Option String
  last_updated : Option String
  maps_url : Option String
  distance_miles : ℚ
  deriving Repr, DecidableEq

/-- The `metadata` object of the search response. -/
structure SearchMetadata where
  count : ℕ
  radius : ℚ
  deriving Repr, DecidableEq

/-- The value returned by `searchStores`. -/
structure SearchResponse where
  stores : List SearchStoreOut
  metadata : SearchMetadata
  deriving Repr, DecidableEq

/-- The `1609.34` meters-per-mile constant of
`services/supabaseServicesSearch.js`. -/
def METERS_PER_MILE : ℚ := 160934 / 100

/-- JavaScript `+(x).toFixed(1)`: round to one decimal place.  `toFixed`
rounds to the nearest representable decimal, half away from zero; for the
positive, non-tie distances at issue this coincides with `round`
(half-up). -/
def jsToFixed1 (q : ℚ) : ℚ := ((round (q * 10) : ℤ) : ℚ) / 10

/-- `searchStores({ latitude, longitude, radius })` given the rows the
`nearby_stores` procedure returned for `radius * 1609.34` meters: maps each
row in order to the response shape, converting `distance_meters` to
`distance_miles = +(distance_meters / 1609.34).toFixed(1)`. -/
def searchStores (latitude longitude radius : ℚ) (rows : List NearbyRow) : SearchResponse :=
  let _radiusInMeters := radius * METERS_PER_MILE
  { stores := rows.map (fun store =>
      { id := store.id
        name := store.name
        address := store.address
        description := store.description
        category_name := store.category_name
        website := store.website
        phone := store.phone
        opening_hours := store.opening_hours
        total_score := store.total_score
        reviews_count := store.reviews_count
        additional_info := store.additional_info
        ai_summary := store.ai_summary
        last_updated := store.last_updated
        maps_url := store.maps_url
        distance_miles := jsToFixed1 (store.distance_meters / METERS_PER_MILE) })
    metadata := { count := rows.length, radius := radius } }

/-- **C9**: `searchStores` preserves the nearest-first row order in its
response (the output ids are the input ids, in order), and for the scenario
rows at 800 and 3200 meters the converted distances are 0.5 and 2.0 miles. -/
theorem searchStores_converts_and_preserves_order :
    (∀ (lat lng radius : ℚ) (rows : List NearbyRow),
      (searchStores lat lng radius rows).stores.map (fun s => s.id) =
        rows.map (fun r => r.id)) ∧
    (∀ (lat lng : ℚ) (r1 r2 : NearbyRow),
      r1.distance_meters = 800 → r2.distance_meters = 3200 →
      (searchStores lat lng 5 [r1, r2]).stores.map (fun s => s.distance_miles) =
        [1/2, 2]) := by
  constructor
  · intro lat lng radius rows
    unfold searchStores
    rw [List.map_map]
    rfl
  · intro lat lng r1 r2 h1 h2
    unfold searchStores
    simp only [List.map_cons, List.map_nil, h1, h2]
    have e1 : jsToFixed1 ((800 : ℚ) / METERS_PER_MILE) = 1/2 := by
      unfold jsToFixed1 METERS_PER_MILE
      norm_num [round_eq]
    have e2 : jsToFixed1 ((3200 : ℚ) / METERS_PER_MILE) = 2 := by
      unfold jsToFixed1 METERS_PER_MILE
      norm_num [round_eq]
    rw [e1, e2]

/-- A concrete `nearby_stores` row at a given distance. -/
def mkNearbyRow (i : ℕ) (d : ℚ) : NearbyRow :=
  ⟨i, "Shop", none, none, none, none, none, none, none, none, none, none, none, none, d⟩

/-- Witness for `searchStores_converts_and_preserves_order` at a concrete
input: ZIP-less concrete coordinates, radius 5, two rows at 800 m and
3200 m. -/
theorem searchStores_converts_and_preserves_order_witness :
    (mkNearbyRow 1 800).distance_meters = 800 ∧
    (mkNearbyRow 2 3200).distance_meters = 3200 ∧
    (searchStores (94107/10000) (-122) 5 [mkNearbyRow 1 800, mkNearbyRow 2 3200]).stores.map
        (fun s => s.distance_miles) = [1/2, 2] ∧
    (searchStores (94107/10000) (-122) 5 [mkNearbyRow 1 800, mkNearbyRow 2 3200]).stores.map
        (fun s => s.id) = [1, 2] :=
  ⟨rfl, rfl,
    searchStores_converts_and_preserves_order.2 (94107/10000) (-122)
      (mkNearbyRow 1 800) (mkNearbyRow 2 3200) rfl rfl,
    searchStores_converts_and_preserves_order.1 (94107/10000) (-122) 5
      [mkNearbyRow 1 800, mkNearbyRow 2 3200]⟩

/-! ### Scrape orchestrator (`routes/v1/scrape.routes.js`, `processSingleState`) -/

/-- The count summary returned by `writeStores` to its caller. -/
structure WriteStoresSummary where
  totalProcessed : ℕ
  successful : ℕ
  failed : ℕ
  newStores : ℕ
  updatedStores : ℕ
  deriving Repr, DecidableEq

/-- The `store_processing_results` payload embedded into the run-metadata
record: either the spread of `writeStores`' summary together with
`validationFailures`, or `{ error }` when the upsert threw. -/
inductive StoreProcessingResults where
  | written (storeResults : WriteStoresSummary) (validationFailures : ℕ)
  | writeError (error : String)
  deriving Repr, DecidableEq

/-- The run-metadata draft assembled by `crawlerGooglePlaces`, with the fields
`processSingleState` reads or mutates (`runId`, `resultsCount`,
`store_processing_results`); the remaining descriptive fields (actor id,
status, timing, usage, search params) ride along unchanged. -/
structure RunDetails where
  runId : String
  resultsCount : ℕ
  store_processing_results : Option StoreProcessingResults
  deriving Repr, DecidableEq

/-- What `crawlerGooglePlaces` returns to `processSingleState`. -/
structure ScrapeOutput where
  stores : List Store
  runDetails : RunDetails
  validationFailures : ℕ
  deriving Repr

/-- The per-jurisdiction result object returned by `processSingleState`. -/
structure StateOutcome where
  state : String
  success : Bool
  error : Option String
  storesProcessed : ℕ
  runId : Option String
  deriving Repr, DecidableEq

/-- `processSingleState(state)` with its three external effects as oracles:
the scrape (`crawlerGooglePlaces`), the store write (`writeStores`) and the
run-metadata insert (`writeApifyRunDetails`, whose thrown error wraps the
cause as `Failed to store Apify run details: …`).  Returns the result object
together with the list of run-metadata records actually persisted.  Source
structure: the scrape throwing reaches the outer catch before any
run-metadata record exists; a store-write error is caught in the inner
try/catch and embedded as `store_processing_results = { error }`; the
metadata insert happens once after the inner try/catch, and its throw also
lands in the outer catch (after the failed insert persisted nothing). -/
def processSingleState (state : String)
    (scrape : Except String ScrapeOutput)
    (write : Except String WriteStoresSummary)
    (persistRun : Except String Unit) :
    StateOutcome × List RunDetails :=
  match scrape with
  | .error e => (⟨state, false, some e, 0, none⟩, [])
  | .ok out =>
    let rd :=
      match write with
      | .ok storeResults =>
        { out.runDetails with
            store_processing_results := some (.written storeResults out.validationFailures) }
      | .error storeError =>
        { out.runDetails with store_processing_results := some (.writeError storeError) }
    match persistRun with
    | .error e2 =>
      (⟨state, false, some ("Failed to store Apify run details: " ++ e2), 0, none⟩, [])
    | .ok _ =>
      (⟨state, true, none, out.stores.length, some out.runDetails.runId⟩, [rd])

/-- **C7** (counterexample): when the scrape itself throws, zero run-metadata
records are persisted — not the one record the claim requires for every
outcome. -/
theorem processSingleState_no_record_when_scrape_throws :
    (processSingleState "Florida" (Except.error "apify run failed")
        (Except.ok ⟨0, 0, 0, 0, 0⟩) (Except.ok ())).2.length = 0 := rfl

/-- **C7** (amended): one run-metadata record is persisted whenever the
scrape succeeds and the metadata insert itself succeeds, regardless of the
store write's outcome; if the upsert throws, the jurisdiction is still
reported as scraped successfully and the persisted record embeds the write
error in its store-processing results.  If the scrape itself throws, no
run-metadata record is written and the jurisdiction is reported failed. -/
theorem processSingleState_run_record :
    (∀ (state : String) (out : ScrapeOutput) (write : Except String WriteStoresSummary),
      (processSingleState state (.ok out) write (.ok ())).2.length = 1 ∧
      (processSingleState state (.ok out) write (.ok ())).1.success = true ∧
      (processSingleState state (.ok out) write (.ok ())).1.storesProcessed =
        out.stores.length ∧
      ∀ we, write = Except.error we →
        (processSingleState state (.ok out) write (.ok ())).2 =
          [{ out.runDetails with
              store_processing_results := some (StoreProcessingResults.writeError we) }]) ∧
    (∀ (state e : String) (write : Except String WriteStoresSummary)
        (persist : Except String Unit),
      (processSingleState state (.error e) write persist).2 = [] ∧
      (processSingleState state (.error e) write persist).1.success = false) := by
  constructor
  · intro state out write
    refine ⟨rfl, rfl, rfl, ?_⟩
    intro we hwe
    subst hwe
    rfl
  · intro state e write persist
    exact ⟨rfl, rfl⟩

/-- Witness for `processSingleState_run_record` at a concrete input: a
successful scrape of zero stores whose store write throws, and a scrape that
throws. -/
theorem processSingleState_run_record_witness :
    ((processSingleState "Florida" (.ok ⟨[], ⟨"run-1", 3, none⟩, 1⟩)
        (Except.error "db write down") (.ok ())).2.length = 1 ∧
      (processSingleState "Florida" (.ok ⟨[], ⟨"run-1", 3, none⟩, 1⟩)
        (Except.error "db write down") (.ok ())).1.success = true ∧
      (processSingleState "Florida" (.ok ⟨[], ⟨"run-1", 3, none⟩, 1⟩)
        (Except.error "db write down") (.ok ())).2 =
        [⟨"run-1", 3, some (StoreProcessingResults.writeError "db write down")⟩]) ∧
    (processSingleState "Georgia" (Except.error "apify down")
        (Except.ok ⟨0, 0, 0, 0, 0⟩) (.ok ())).2 = [] := by
  have h := processSingleState_run_record.1 "Florida" ⟨[], ⟨"run-1", 3, none⟩, 1⟩
    (Except.error "db write down")
  have h2 := processSingleState_run_record.2 "Georgia" "apify down"
    (Except.ok ⟨0, 0, 0, 0, 0⟩) (.ok ())
  exact ⟨⟨h.1, h.2.1, h.2.2.2 "db write down" rfl⟩, h2.1⟩
